import Mathlib

/-!
Shallow embedding of the robrix widget sources:
  src/shared/text_or_image.rs   (TextOrImage)
  src/image_viewer.rs           (modal ImageViewer)
  src/shared/image_viewer.rs    (inline ImageViewer, here SharedImageViewer)
  src/shared/auto_fit_image.rs  (RobrixAutoFitImage)

Widget state (the `#[rust]` fields plus the visibility flags of the
sub-views the code toggles) is modelled as explicit record types; event
handlers become functions from state and decoded toolkit inputs (hit-test
results, action lists) to a new state together with the list of emitted
application actions.  Toolkit machinery (hit testing, redraw requests,
key focus) stays outside the state: the hit-test result an event produces
on a given area is passed in as a parameter, and redraw requests carry no
observable state here.
-/

/-- Result of `event.hits(cx, area)` for one area, as the handlers consume
it: a finger-down, a finger-up carrying the `is_over`, `is_primary_hit()`
and `was_tap()` flags, or anything else. -/
inductive Hit where
  | FingerDown
  | FingerUp (is_over is_primary_hit was_tap : Bool)
  | Nothing
  deriving Repr, DecidableEq

namespace TextOrImage

/-- The `ImageValue` from src/shared/text_or_image.rs: the original MXC URI and
the raw timeline image bytes.  `OwnedMxcUri` is modelled as `String`,
`Arc<[u8]>` as `List Nat`. -/
structure ImageValue where
  original_mxc_uri : String
  timeline_image_data : List Nat
  deriving Repr, DecidableEq

/-- The `TextOrImageStatus` from src/shared/text_or_image.rs. -/
inductive TextOrImageStatus where
  | Text
  | Image
  deriving Repr, DecidableEq

/-- The mutable state of a `TextOrImage` widget: its three `#[rust]`
fields plus the visibility flags of the `text_view` / `image_view`
sub-views and the label text the methods write. -/
structure State where
  status : TextOrImageStatus
  size_in_pixels : Nat × Nat
  image_value : Option ImageValue
  text_view_visible : Bool
  image_view_visible : Bool
  label_text : String
  deriving Repr, DecidableEq

/-- The `TextOrImageAction` from src/shared/text_or_image.rs (the `None`
variant exists only for the toolkit's `DefaultNone` and is never emitted
by this widget; the handler emits only `Click`). -/
inductive TextOrImageAction where
  | Click (uri : String)
  deriving Repr, DecidableEq

/-- The `TextOrImage::handle_event`: hit events are examined only when
`status` is `Image`; a primary finger-up tap over the image area emits
`Click(image_value.original_mxc_uri)` when `image_value` is `Some`, and
nothing when it is `None` (the blurhash case).  `FingerDown` only sets key
focus (a `cx` effect, no widget state).  Returns the emitted actions; the
widget state itself is not changed by the handler. -/
def handle_event (s : State) (hit_on_image : Hit) : List TextOrImageAction :=
  match s.status with
  | .Image =>
    match hit_on_image with
    | .FingerUp is_over is_primary_hit was_tap =>
      if is_over && is_primary_hit && was_tap then
        match s.image_value with
        | some image_value => [.Click image_value.original_mxc_uri]
        | none => []
      else []
    | _ => []
  | .Text => []

/-- The `TextOrImage::show_text`: hides the image view, shows the text view,
sets the label text and switches `status` to `Text`. -/
def show_text (s : State) (text : String) : State :=
  { s with
    image_view_visible := false
    text_view_visible := true
    label_text := text
    status := .Text }

/-- The `TextOrImage::show_image`: runs the caller-supplied
`image_set_function` (its outcome is the `res` argument).  On `Ok(size)`
it switches to image mode, records the size and returns `Ok(())`; on
`Err(e)` it shows the text "Failed to display image." and propagates the
error. -/
def show_image {E : Type} (s : State) (res : Except E (Nat × Nat)) :
    State × Except E Unit :=
  match res with
  | .ok size_in_pixels =>
    ({ s with
        status := .Image
        size_in_pixels := size_in_pixels
        image_view_visible := true
        text_view_visible := false }, .ok ())
  | .error e => (show_text s "Failed to display image.", .error e)

/-- The `TextOrImageRef::set_original_mxc_uri_and_timeline_image_data`: stores
`Some(ImageValue { original_mxc_uri, timeline_image_data })` (the
borrow-failure branch leaves the state unchanged and is outside this
per-widget state function). -/
def set_original_mxc_uri_and_timeline_image_data
    (s : State) (original_mxc_uri : String) (timeline_image_data : List Nat) :
    State :=
  { s with
    image_value := some
      { original_mxc_uri := original_mxc_uri
        timeline_image_data := timeline_image_data } }

/-- The view invariant of claim C5: the status field matches the visible
sub-view, and exactly one of the two sub-views is visible. -/
def viewInvariant (s : State) : Prop :=
  (s.status = .Text → s.text_view_visible = true ∧ s.image_view_visible = false) ∧
  (s.status = .Image → s.image_view_visible = true ∧ s.text_view_visible = false) ∧
  s.text_view_visible ≠ s.image_view_visible

instance (s : State) : Decidable (viewInvariant s) := by
  unfold viewInvariant; infer_instance

end TextOrImage

namespace ImageViewer

/-!  The modal `ImageViewer` of src/image_viewer.rs. -/

/-- Mutable state of the modal viewer: the `visible` flag of the root view
and the texture of the inner `image_view.image` widget (texture contents
modelled abstractly as `List Nat`; `None` is no texture). -/
structure State where
  visible : Bool
  texture : Option (List Nat)
  deriving Repr, DecidableEq

/-- The `ImageViewerAction` from src/image_viewer.rs, as the handler consumes
it; `Show` carries the raw image bytes.  Any other action in the actions
list (including the `None` variant) is modelled by `other`. -/
inductive MAction where
  | Show (data : List Nat)
  | other
  deriving Repr, DecidableEq

/-- The `ImageViewer::open`: sets `visible` to true (and requests a redraw). -/
def open_viewer (s : State) : State :=
  { s with visible := true }

/-- The `ImageViewer::clear_texture`: sets the image texture to `None`. -/
def clear_texture (s : State) : State :=
  { s with texture := none }

/-- The `ImageViewer::close`: sets `visible` to false and clears the texture
(and requests a redraw). -/
def close (s : State) : State :=
  clear_texture { s with visible := false }

/-- The `ImageViewer::load_with_data`: decodes the bytes with
`utils::load_png_or_jpg` (the decoder lives outside these sources and is
abstracted as the parameter `decode`; on success it installs the decoded
texture into the image).  On a decode error the error is only logged and
the state is unchanged; on success the texture is set and a redraw is
requested. -/
def load_with_data (decode : List Nat → Except String (List Nat))
    (s : State) (data : List Nat) : State :=
  match decode data with
  | .error _ => s
  | .ok tex => { s with texture := some tex }

/-- One `ImageViewerAction::Show(data)` iteration of the action loop in
`ImageViewer::handle_actions`: clear the texture, open the viewer, then
load the bytes. -/
def show_step (decode : List Nat → Except String (List Nat))
    (s : State) (data : List Nat) : State :=
  load_with_data decode (open_viewer { s with texture := none }) data

/-- The `ImageViewer::handle_actions` (via `MatchEvent`): first, if the close
button was clicked in this actions batch (`closeClicked`), close the
viewer; then for each `Show(data)` action clear the texture, open and
load the data. -/
def handle_actions (decode : List Nat → Except String (List Nat))
    (s : State) (closeClicked : Bool) (actions : List MAction) : State :=
  let s1 := if closeClicked then close s else s
  actions.foldl
    (fun st a =>
      match a with
      | .Show data => show_step decode st data
      | .other => st) s1

/-- The `ImageViewer::handle_event`: the hit of the event on the viewer's
whole area is `hit_whole` (the preceding `event.hits(cx, image_area)`
call only captures taps landing on the image so that they do not reach
the whole area).  A finger-up with `was_tap()` closes the viewer;
everything else leaves the state unchanged. -/
def handle_event (s : State) (hit_whole : Hit) : State :=
  match hit_whole with
  | .FingerUp _ _ was_tap => if was_tap then close s else s
  | _ => s

end ImageViewer

namespace SharedImageViewer

/-!  The inline `ImageViewer` of src/shared/image_viewer.rs. -/

/-- Mutable state of the inline viewer: the root view's `visible` flag and
`widgetref_image_uri_map`, the `HashMap<WidgetUid, OwnedMxcUri>` (modelled
extensionally as a function; `WidgetUid` as `Nat`, `OwnedMxcUri` as
`String`). -/
structure State where
  visible : Bool
  widgetref_image_uri_map : Nat → Option String

/-- The `ImageViewer::insert_date`: `HashMap::insert` of `mx_uri` under
`text_or_image_uid`, overwriting any previous entry for that key. -/
def insert_date (s : State) (text_or_image_uid : Nat) (mx_uri : String) :
    State :=
  { s with
    widgetref_image_uri_map := fun k =>
      if k = text_or_image_uid then some mx_uri
      else s.widgetref_image_uri_map k }

/-- The handler of `WidgetMatchEvent::handle_actions`: if the close button
was clicked, hide the view; the map is not touched. -/
def handle_actions (s : State) (closeClicked : Bool) : State :=
  if closeClicked then { s with visible := false } else s

end SharedImageViewer

namespace RobrixAutoFitImage

/-!  `RobrixAutoFitImage` of src/shared/auto_fit_image.rs. -/

/-- The `ImageStatus` from src/shared/auto_fit_image.rs. -/
inductive ImageStatus where
  | Size
  | Smallest
  deriving Repr, DecidableEq

/-- A `DVec2` size; only the comparison on `x` matters to the logic, so
components are modelled as `Int`. -/
structure DVec2 where
  x : Int
  y : Int
  deriving Repr, DecidableEq

/-- Mutable state of a `RobrixAutoFitImage`: the root view's `visible`
flag and the two `#[rust]` fields `status` and `target_size`. -/
structure State where
  visible : Bool
  status : ImageStatus
  target_size : Option DVec2
  deriving Repr, DecidableEq

/-- The event kinds `handle_event` distinguishes. -/
inductive MEvent where
  | actions
  | windowGeomChange
  | other
  deriving Repr, DecidableEq

/-- The `new_status` computation inside `handle_event`:
`if current_size.x > target_size.x { ImageStatus::Size } else { ImageStatus::Smallest }`. -/
def new_status (currentSize target_size : DVec2) : ImageStatus :=
  if currentSize.x > target_size.x then ImageStatus.Size else ImageStatus.Smallest

/-- The `RobrixAutoFitImage::handle_event`.  Inputs decoded from the toolkit:
whether the inner image has a texture, the measured size of the view's
area and of the image's area.  Returns the new state and, when the fit
style was re-applied via `apply_over`, the style that was applied
(`Size`: width/height Fill with fit Size; `Smallest`: width Fill, height
Fit with fit Smallest).  Without a texture the handler returns at once;
with a recorded `target_size` it recomputes the status on `Actions` or
`WindowGeomChange` events and re-applies the style only when the status
changed; without a recorded `target_size` it records the image's current
size. -/
def handle_event (s : State) (hasTexture : Bool)
    (currentSize imageSize : DVec2) (ev : MEvent) :
    State × Option ImageStatus :=
  if !hasTexture then (s, none)
  else
    match s.target_size with
    | some target_size =>
      match ev with
      | .actions | .windowGeomChange =>
        if s.status ≠ new_status currentSize target_size then
          ({ s with status := new_status currentSize target_size },
           some (new_status currentSize target_size))
        else (s, none)
      | .other => (s, none)
    | none => ({ s with target_size := some imageSize }, none)

/-- The `RobrixAutoFitImageRef::set_visible`: sets the `visible` flag. -/
def set_visible (s : State) (visible : Bool) : State :=
  { s with visible := visible }

/-- The `RobrixAutoFitImageRef::set_target_size`: stores `target_size` only
when the wrapped image currently has a texture; otherwise (no texture, or
the inner widget could not be borrowed) the state is unchanged. -/
def set_target_size (s : State) (hasTexture : Bool) (target_size : DVec2) :
    State :=
  if hasTexture then { s with target_size := some target_size } else s

end RobrixAutoFitImage

/-!  ## Concrete sample states used by witnesses -/

/-- A sample `TextOrImage` in image mode with a fetched image value. -/
def sampleTextOrImage : TextOrImage.State :=
  { status := .Image
    size_in_pixels := (4, 3)
    image_value := some { original_mxc_uri := "mxc://s/a", timeline_image_data := [1, 2] }
    text_view_visible := false
    image_view_visible := true
    label_text := "" }

/-- A sample `TextOrImage` in text mode. -/
def sampleTextOnly : TextOrImage.State :=
  { status := .Text
    size_in_pixels := (0, 0)
    image_value := none
    text_view_visible := true
    image_view_visible := false
    label_text := "Loading image..." }

/-- A sample modal viewer state with a stale texture. -/
def sampleViewer : ImageViewer.State :=
  { visible := false, texture := some [9] }

/-- A decoder that rejects every byte sequence. -/
def failingDecode : List Nat → Except String (List Nat) :=
  fun _ => .error "decode failed"

/-- A sample auto-fit image state with a recorded target size. -/
def sampleAutoFit : RobrixAutoFitImage.State :=
  { visible := true, status := .Smallest, target_size := some { x := 5, y := 5 } }

/-!  ## Claims -/

/-- C1: for a `TextOrImage` whose `status` is `Image` and whose stored
`image_value` is `Some v`, a primary finger-up tap over the image area
emits exactly one `TextOrImageAction::Click`, carrying
`v.original_mxc_uri`; `set_original_mxc_uri_and_timeline_image_data` is
the operation that stores that locator, so after it runs the tap emits a
click carrying exactly the stored URI. -/
theorem textOrImage_click_emits_stored_uri
    (s : TextOrImage.State) (v : TextOrImage.ImageValue)
    (uri : String) (data : List Nat)
    (hs : s.status = .Image) (hv : s.image_value = some v) :
    TextOrImage.handle_event s (.FingerUp true true true)
      = [.Click v.original_mxc_uri]
    ∧ (TextOrImage.set_original_mxc_uri_and_timeline_image_data s uri data).image_value
      = some { original_mxc_uri := uri, timeline_image_data := data }
    ∧ TextOrImage.handle_event
        (TextOrImage.set_original_mxc_uri_and_timeline_image_data s uri data)
        (.FingerUp true true true)
      = [.Click uri] := by
  refine ⟨?_, rfl, ?_⟩ <;>
    simp [TextOrImage.handle_event,
      TextOrImage.set_original_mxc_uri_and_timeline_image_data, hs, hv]

/-- Witness for C1 at a concrete widget state. -/
theorem textOrImage_click_emits_stored_uri_witness :
    TextOrImage.handle_event sampleTextOrImage (.FingerUp true true true)
      = [.Click "mxc://s/a"]
    ∧ (TextOrImage.set_original_mxc_uri_and_timeline_image_data
        sampleTextOrImage "mxc://s/b" [3]).image_value
      = some { original_mxc_uri := "mxc://s/b", timeline_image_data := [3] }
    ∧ TextOrImage.handle_event
        (TextOrImage.set_original_mxc_uri_and_timeline_image_data
          sampleTextOrImage "mxc://s/b" [3])
        (.FingerUp true true true)
      = [.Click "mxc://s/b"] :=
  textOrImage_click_emits_stored_uri sampleTextOrImage
    { original_mxc_uri := "mxc://s/a", timeline_image_data := [1, 2] }
    "mxc://s/b" [3] rfl rfl

/-- C2: handling an `ImageViewerAction::Show(data)` first clears the
texture, then sets `visible` to true, then loads the bytes (the result
equals that exact composition); on a decode failure the error is only
logged and the viewer remains open with the cleared texture. -/
theorem imageViewer_show_action_clears_opens_loads
    (decode : List Nat → Except String (List Nat))
    (s : ImageViewer.State) (data : List Nat) :
    ImageViewer.handle_actions decode s false [.Show data]
      = ImageViewer.load_with_data decode
          (ImageViewer.open_viewer (ImageViewer.clear_texture s)) data
    ∧ (ImageViewer.open_viewer (ImageViewer.clear_texture s)).texture = none
    ∧ (ImageViewer.open_viewer (ImageViewer.clear_texture s)).visible = true
    ∧ ∀ e, decode data = .error e →
        ImageViewer.handle_actions decode s false [.Show data]
          = ImageViewer.open_viewer (ImageViewer.clear_texture s) := by
  refine ⟨rfl, rfl, rfl, fun e he => ?_⟩
  simp [ImageViewer.handle_actions, ImageViewer.show_step,
    ImageViewer.load_with_data, ImageViewer.open_viewer,
    ImageViewer.clear_texture, he]

/-- Witness for C2: a decoder that always fails leaves the viewer open
with a cleared texture. -/
theorem imageViewer_show_action_witness :
    ImageViewer.handle_actions failingDecode sampleViewer false [.Show [7]]
      = ImageViewer.open_viewer (ImageViewer.clear_texture sampleViewer) :=
  (imageViewer_show_action_clears_opens_loads failingDecode sampleViewer [7]).2.2.2
    "decode failed" rfl

/-- C3: a finger-up tap on the viewer whole area and a close-button click
both run `close`, and `close` establishes `visible = false` and
`texture = none`. -/
theorem imageViewer_close_paths
    (decode : List Nat → Except String (List Nat))
    (s : ImageViewer.State) (is_over is_primary_hit : Bool) :
    ImageViewer.handle_event s (.FingerUp is_over is_primary_hit true)
      = ImageViewer.close s
    ∧ ImageViewer.handle_actions decode s true [] = ImageViewer.close s
    ∧ (ImageViewer.close s).visible = false
    ∧ (ImageViewer.close s).texture = none :=
  ⟨rfl, rfl, rfl, rfl⟩

/-- C4: with a texture and a recorded target size, an `Actions` or
`WindowGeomChange` event sets `status` to `new_status` (that is, `Size`
exactly when the measured width exceeds the target width, `Smallest`
otherwise); the style is re-applied (`apply_over`) only when the status
actually changes, and the recorded target size is untouched. -/
theorem autoFitImage_fit_status
    (s : RobrixAutoFitImage.State)
    (ts currentSize imageSize : RobrixAutoFitImage.DVec2)
    (ev : RobrixAutoFitImage.MEvent)
    (hts : s.target_size = some ts)
    (hev : ev = .actions ∨ ev = .windowGeomChange) :
    (RobrixAutoFitImage.handle_event s true currentSize imageSize ev).1.status
      = RobrixAutoFitImage.new_status currentSize ts
    ∧ (RobrixAutoFitImage.handle_event s true currentSize imageSize ev).2
      = (if s.status = RobrixAutoFitImage.new_status currentSize ts then none
         else some (RobrixAutoFitImage.new_status currentSize ts))
    ∧ (RobrixAutoFitImage.handle_event s true currentSize imageSize ev).1.target_size
      = s.target_size := by
  rcases hev with h | h <;> subst h <;>
    by_cases hst : s.status = RobrixAutoFitImage.new_status currentSize ts <;>
      simp [RobrixAutoFitImage.handle_event, hts, hst]

/-- Witness for C4: a view measured wider than the recorded target size
switches the status from `Smallest` to `Size` and re-applies the style. -/
theorem autoFitImage_fit_status_witness :
    (RobrixAutoFitImage.handle_event sampleAutoFit true
        { x := 10, y := 2 } { x := 1, y := 1 } .actions).1.status = .Size
    ∧ (RobrixAutoFitImage.handle_event sampleAutoFit true
        { x := 10, y := 2 } { x := 1, y := 1 } .actions).2 = some .Size
    ∧ (RobrixAutoFitImage.handle_event sampleAutoFit true
        { x := 10, y := 2 } { x := 1, y := 1 } .actions).1.target_size
      = some { x := 5, y := 5 } := by
  have h := autoFitImage_fit_status sampleAutoFit { x := 5, y := 5 }
    { x := 10, y := 2 } { x := 1, y := 1 } .actions rfl (Or.inl rfl)
  simpa [RobrixAutoFitImage.new_status, sampleAutoFit] using h

/-- C5: after `show_text`, and after `show_image` with either result,
exactly one of the two sub-views is visible and the `status` field
matches the visible sub-view. -/
theorem textOrImage_view_invariant_holds {E : Type}
    (s : TextOrImage.State) (text : String) (res : Except E (Nat × Nat)) :
    TextOrImage.viewInvariant (TextOrImage.show_text s text)
    ∧ TextOrImage.viewInvariant (TextOrImage.show_image s res).1 := by
  constructor
  · simp [TextOrImage.viewInvariant, TextOrImage.show_text]
  · cases res <;>
      simp [TextOrImage.viewInvariant, TextOrImage.show_image,
        TextOrImage.show_text]

/-- C6 counterexample: `insert_date` is a public operation other than
`handle_event`, yet it changes the widget-to-URI map, so widget state is
not mutated only by the event handler. -/
theorem widget_state_only_handler_counterexample :
    (SharedImageViewer.insert_date
        { visible := true, widgetref_image_uri_map := fun _ => none }
        0 "mxc://s/c").widgetref_image_uri_map 0
    ≠ ({ visible := true, widgetref_image_uri_map := fun _ => none }
        : SharedImageViewer.State).widgetref_image_uri_map 0 := by
  simp [SharedImageViewer.insert_date]

/-- C6 amended: each widget state is mutated only through that widget
instance itself — its event handler or its own public setter operations
(`set_original_mxc_uri_and_timeline_image_data`, `set_target_size`,
`insert_date`) — and each setter writes only its designated field,
leaving the rest of that widget state unchanged. -/
theorem widget_setters_frame
    (t : TextOrImage.State) (uri : String) (data : List Nat)
    (a : RobrixAutoFitImage.State) (b : Bool) (ts : RobrixAutoFitImage.DVec2)
    (m : SharedImageViewer.State) (uid : Nat) (mx : String) :
    (TextOrImage.set_original_mxc_uri_and_timeline_image_data t uri data).status
      = t.status
    ∧ (TextOrImage.set_original_mxc_uri_and_timeline_image_data t uri data).size_in_pixels
      = t.size_in_pixels
    ∧ (TextOrImage.set_original_mxc_uri_and_timeline_image_data t uri data).text_view_visible
      = t.text_view_visible
    ∧ (TextOrImage.set_original_mxc_uri_and_timeline_image_data t uri data).image_view_visible
      = t.image_view_visible
    ∧ (TextOrImage.set_original_mxc_uri_and_timeline_image_data t uri data).label_text
      = t.label_text
    ∧ (RobrixAutoFitImage.set_target_size a b ts).status = a.status
    ∧ (RobrixAutoFitImage.set_target_size a b ts).visible = a.visible
    ∧ (SharedImageViewer.insert_date m uid mx).visible = m.visible := by
  cases b <;>
    simp [TextOrImage.set_original_mxc_uri_and_timeline_image_data,
      RobrixAutoFitImage.set_target_size, SharedImageViewer.insert_date]

/-- C7: after `insert_date(uid, uri)` the map sends `uid` to `uri`
(overwriting any previous entry for `uid`) and sends every other key to
its previous value; the `visible` flag is untouched. -/
theorem sharedImageViewer_insert_date_map
    (s : SharedImageViewer.State) (uid k : Nat) (uri : String) :
    (SharedImageViewer.insert_date s uid uri).widgetref_image_uri_map k
      = (if k = uid then some uri else s.widgetref_image_uri_map k)
    ∧ (SharedImageViewer.insert_date s uid uri).visible = s.visible :=
  ⟨rfl, rfl⟩

/-- C8: `show_image` propagates exactly the outcome of
`image_set_function`: the returned `Except` is the input with the `Ok`
payload replaced by `()` (so it is `Err(e)` iff the function returned
`Err(e)`); on `Err(e)` the widget shows the text
"Failed to display image." (status `Text`), and on `Ok((w, h))` the
status becomes `Image` and `(w, h)` is stored as `size_in_pixels`. -/
theorem textOrImage_show_image_result {E : Type}
    (s : TextOrImage.State) (res : Except E (Nat × Nat)) (e : E) (w h : Nat) :
    (TextOrImage.show_image s res).2 = Except.map (fun _ => ()) res
    ∧ TextOrImage.show_image s (.error e)
      = (TextOrImage.show_text s "Failed to display image.", .error e)
    ∧ (TextOrImage.show_image s (Except.ok (w, h) : Except E (Nat × Nat))).1.status
      = .Image
    ∧ (TextOrImage.show_image s (Except.ok (w, h) : Except E (Nat × Nat))).1.size_in_pixels
      = (w, h)
    ∧ (TextOrImage.show_image s (Except.ok (w, h) : Except E (Nat × Nat))).2
      = .ok () := by
  refine ⟨?_, rfl, rfl, rfl, rfl⟩
  cases res <;> rfl

/-- C9: no `Click` action is emitted while the status is `Text` or while
the stored `image_value` is `None` (the not-yet-fetched blurhash case):
the handler produces no action on any event. -/
theorem textOrImage_no_click_when_unready
    (s : TextOrImage.State) (hit : Hit)
    (h : s.status = .Text ∨ s.image_value = none) :
    TextOrImage.handle_event s hit = [] := by
  rcases h with h | h
  · simp [TextOrImage.handle_event, h]
  · unfold TextOrImage.handle_event
    cases s.status <;> cases hit <;> simp [h]

/-- Witness for C9 at a concrete text-mode state. -/
theorem textOrImage_no_click_when_unready_witness :
    TextOrImage.handle_event sampleTextOnly (.FingerUp true true true) = [] :=
  textOrImage_no_click_when_unready sampleTextOnly (.FingerUp true true true)
    (Or.inl rfl)

/-- C10: `set_target_size` stores the given size exactly when the wrapped
image currently has a texture; without a texture the state is unchanged,
and in either case the other fields are untouched. -/
theorem autoFitImage_set_target_size_guard
    (s : RobrixAutoFitImage.State) (ts : RobrixAutoFitImage.DVec2) (b : Bool) :
    (RobrixAutoFitImage.set_target_size s true ts).target_size = some ts
    ∧ RobrixAutoFitImage.set_target_size s false ts = s
    ∧ (RobrixAutoFitImage.set_target_size s b ts).status = s.status
    ∧ (RobrixAutoFitImage.set_target_size s b ts).visible = s.visible := by
  refine ⟨rfl, rfl, ?_, ?_⟩ <;> cases b <;> rfl
